import Mathlib

/-!
Verification of the Ed448 key-management facade of
`src/cryptography/hazmat/primitives/asymmetric/ed448.py`.

The source file is the capability-checked facade: each constructor first asks
the backend provider whether Ed448 is supported and only then delegates the
actual work.  The provider operations themselves (loading raw bytes, the
serialization format matrix, signing, verification, public-key derivation,
concrete-key equality) are abstract methods or backend code absent from the
source tree; those are modelled here from the specification and each such
definition's doc comment starts with `Modelled from the spec:`.

Byte strings are `List Nat`.  Every facade operation returns, besides its
result, the list of provider invocations it performed (`ProviderCall`), so
that "no provider call beyond the capability check" and "fails before any
provider computation" become provable statements.  Operations that may draw
randomness additionally thread an explicit entropy stream (`List Nat`).
-/

/-- A byte string: a list of byte values. -/
abbrev ByteString := List Nat

/-- The reason code attached to the unsupported-algorithm error in the
source (`_Reasons.UNSUPPORTED_PUBLIC_KEY_ALGORITHM`). -/
inductive Reasons where
  | UNSUPPORTED_PUBLIC_KEY_ALGORITHM
deriving DecidableEq

/-- The error taxonomy of the layer (spec section 7): unsupported algorithm,
invalid key bytes, invalid (encoding, format) combination, encryption
requested where it cannot be carried, failed signature verification. -/
inductive CryptoError where
  | unsupportedAlgorithm (message : String) (reason : Reasons)
  | invalidKey
  | unsupportedFormat
  | invalidArgument
  | invalidSignature
deriving DecidableEq

/-- The outer container selector (`_serialization.Encoding`). -/
inductive Encoding where
  | Raw
  | PEM
  | DER
  | OpenSSH
deriving DecidableEq

/-- The structural shape selector for public export
(`_serialization.PublicFormat`). -/
inductive PublicFormat where
  | Raw
  | SubjectPublicKeyInfo
  | OpenSSH
deriving DecidableEq

/-- The structural shape selector for private export
(`_serialization.PrivateFormat`). -/
inductive PrivateFormat where
  | Raw
  | PKCS8
  | OpenSSH
deriving DecidableEq

/-- The private-export encryption configuration
(`_serialization.KeySerializationEncryption`), with its `NoEncryption`
variant and an encrypting variant carrying a password. -/
inductive KeySerializationEncryption where
  | NoEncryption
  | BestAvailableEncryption (password : ByteString)
deriving DecidableEq

/-- One invocation of the backend provider, recorded in the trace a facade
operation returns: the `ed448_supported` capability check, the load/generate
construction calls, and the structured-serialization calls. -/
inductive ProviderCall where
  | supportedCheck
  | loadPublicBytes (data : ByteString)
  | loadPrivateBytes (data : ByteString)
  | generateKey
  | serializePublicOp (encoding : Encoding) (format : PublicFormat)
  | serializePrivateOp (encoding : Encoding) (format : PrivateFormat)
deriving DecidableEq

/-- Modelled from the spec: the provider capability of section 6.  It reports
whether Ed448 is supported and supplies the curve arithmetic this layer
treats as an external collaborator: public-key derivation from a seed,
deterministic signing, verification, and the opaque structured exports. -/
structure Provider where
  ed448Supported : Bool
  derivePublic : ByteString → ByteString
  signRaw : ByteString → ByteString → ByteString
  verifyRaw : ByteString → ByteString → ByteString → Bool
  serializePublic : Encoding → PublicFormat → ByteString → ByteString
  serializePrivate :
    Encoding → PrivateFormat → KeySerializationEncryption → ByteString → ByteString

/-- A public key: its raw verification material, the 57-byte encoded point. -/
structure Ed448PublicKey where
  rawBytes : ByteString
deriving DecidableEq

/-- A private key: its raw signing material, the 57-byte seed. -/
structure Ed448PrivateKey where
  seed : ByteString
deriving DecidableEq

/-- The message of the `UnsupportedAlgorithm` error raised by every
constructor in the source. -/
def ed448UnsupportedMessage : String :=
  "ed448 is not supported by this version of OpenSSL."

/-- The `UnsupportedAlgorithm` error each constructor raises in the source
(message and reason from `ed448.py`). -/
def ed448UnsupportedError : CryptoError :=
  .unsupportedAlgorithm ed448UnsupportedMessage .UNSUPPORTED_PUBLIC_KEY_ALGORITHM

/-- Modelled from the spec: `backend.ed448_load_public_bytes`, absent from
the source tree.  The spec requires it to fail with an `InvalidKey`-class
error on inputs whose length is not exactly 57 bytes; curve-point decoding
beyond the length check is provider arithmetic out of scope. -/
def ed448_load_public_bytes (data : ByteString) : Except CryptoError Ed448PublicKey :=
  if data.length = 57 then .ok ⟨data⟩ else .error .invalidKey

/-- Modelled from the spec: `backend.ed448_load_private_bytes`, absent from
the source tree.  Fails with an `InvalidKey`-class error on inputs whose
length is not exactly 57 bytes. -/
def ed448_load_private_bytes (data : ByteString) : Except CryptoError Ed448PrivateKey :=
  if data.length = 57 then .ok ⟨data⟩ else .error .invalidKey

/-- `Ed448PublicKey.from_public_bytes` from the source: when the provider
lacks Ed448 support, raise `UnsupportedAlgorithm` (only the capability check
has run); otherwise delegate to the backend load.  The second component is
the trace of provider calls performed. -/
def Ed448PublicKey.from_public_bytes (p : Provider) (data : ByteString) :
    Except CryptoError Ed448PublicKey × List ProviderCall :=
  if !p.ed448Supported then
    (.error ed448UnsupportedError, [.supportedCheck])
  else
    (ed448_load_public_bytes data, [.supportedCheck, .loadPublicBytes data])

/-- `Ed448PrivateKey.generate` from the source: capability check, then
delegation to `backend.ed448_generate_key`.  The provider's fresh key is
modelled as drawing 57 bytes from the explicit entropy stream, returned
alongside the remaining stream. -/
def Ed448PrivateKey.generate (p : Provider) (entropy : List Nat) :
    (Except CryptoError Ed448PrivateKey × List ProviderCall) × List Nat :=
  if !p.ed448Supported then
    ((.error ed448UnsupportedError, [.supportedCheck]), entropy)
  else
    ((.ok ⟨entropy.take 57⟩, [.supportedCheck, .generateKey]), entropy.drop 57)

/-- `Ed448PrivateKey.from_private_bytes` from the source: capability check,
then delegation to the backend load, with the trace of provider calls. -/
def Ed448PrivateKey.from_private_bytes (p : Provider) (data : ByteString) :
    Except CryptoError Ed448PrivateKey × List ProviderCall :=
  if !p.ed448Supported then
    (.error ed448UnsupportedError, [.supportedCheck])
  else
    (ed448_load_private_bytes data, [.supportedCheck, .loadPrivateBytes data])

/-- Modelled from the spec: the valid (encoding, format) matrix for public
export.  Raw encoding pairs only with Raw format and conversely;
SubjectPublicKeyInfo takes a PEM or DER container; OpenSSH format takes the
OpenSSH container. -/
def validPublicPair : Encoding → PublicFormat → Bool
  | .Raw, .Raw => true
  | .PEM, .SubjectPublicKeyInfo => true
  | .DER, .SubjectPublicKeyInfo => true
  | .OpenSSH, .OpenSSH => true
  | _, _ => false

/-- Modelled from the spec: the valid (encoding, format) matrix for private
export.  Raw pairs only with Raw; PKCS8 takes a PEM or DER container; the
OpenSSH private format takes a PEM container. -/
def validPrivatePair : Encoding → PrivateFormat → Bool
  | .Raw, .Raw => true
  | .PEM, .PKCS8 => true
  | .DER, .PKCS8 => true
  | .PEM, .OpenSSH => true
  | _, _ => false

/-- Modelled from the spec: the concrete `public_bytes`, abstract in the
source.  An invalid (encoding, format) pair fails with an
`UnsupportedFormat`-class error before any provider computation (empty
trace); Raw/Raw yields the stored raw bytes; a valid structured pair
delegates the opaque export to the provider. -/
def Ed448PublicKey.public_bytes (p : Provider) (k : Ed448PublicKey)
    (encoding : Encoding) (format : PublicFormat) :
    Except CryptoError ByteString × List ProviderCall :=
  if validPublicPair encoding format then
    match encoding, format with
    | .Raw, .Raw => (.ok k.rawBytes, [])
    | _, _ =>
      (.ok (p.serializePublic encoding format k.rawBytes),
        [.serializePublicOp encoding format])
  else
    (.error .unsupportedFormat, [])

/-- `Ed448PublicKey.public_bytes_raw` from the source: exactly
`public_bytes(Encoding.Raw, PublicFormat.Raw)`. -/
def Ed448PublicKey.public_bytes_raw (p : Provider) (k : Ed448PublicKey) :
    Except CryptoError ByteString × List ProviderCall :=
  k.public_bytes p .Raw .Raw

/-- Modelled from the spec: the concrete `verify`, abstract in the source.
It succeeds silently exactly when the provider's verification accepts the
signature over the data for this key, and otherwise fails with
`InvalidSignature` carrying no further diagnostic. -/
def Ed448PublicKey.verify (p : Provider) (k : Ed448PublicKey)
    (signature : ByteString) (data : ByteString) : Except CryptoError Unit :=
  if p.verifyRaw k.rawBytes signature data then .ok () else .error .invalidSignature

/-- Modelled from the spec: concrete public-key equality, abstract in the
source.  Two public keys are equal iff their underlying raw bytes are
identical, whatever their construction path. -/
def Ed448PublicKey.eq (a b : Ed448PublicKey) : Bool :=
  a.rawBytes == b.rawBytes

/-- Modelled from the spec: the concrete `public_key`, abstract in the
source.  Deterministic derivation of the matching public key, a pure
function of the private material through the provider. -/
def Ed448PrivateKey.public_key (p : Provider) (k : Ed448PrivateKey) :
    Ed448PublicKey :=
  ⟨p.derivePublic k.seed⟩

/-- Modelled from the spec: the concrete `sign`, abstract in the source.
The deterministic Ed448 signature is the provider's pure function of the
seed and the data; the process entropy stream is passed through so that the
absence of randomness consumption is observable. -/
def Ed448PrivateKey.sign (p : Provider) (k : Ed448PrivateKey)
    (data : ByteString) (entropy : List Nat) : ByteString × List Nat :=
  (p.signRaw k.seed data, entropy)

/-- Modelled from the spec: the concrete `private_bytes`, abstract in the
source.  An invalid (encoding, format) pair fails with an
`UnsupportedFormat`-class error and a Raw export requested with encryption
fails with an `InvalidArgument`-class error, both before any provider
computation (empty trace); valid Raw/Raw/NoEncryption yields the seed; a
valid structured pair delegates the opaque export to the provider. -/
def Ed448PrivateKey.private_bytes (p : Provider) (k : Ed448PrivateKey)
    (encoding : Encoding) (format : PrivateFormat)
    (encryption_algorithm : KeySerializationEncryption) :
    Except CryptoError ByteString × List ProviderCall :=
  if validPrivatePair encoding format then
    match encoding, format with
    | .Raw, .Raw =>
      if encryption_algorithm = .NoEncryption then (.ok k.seed, [])
      else (.error .invalidArgument, [])
    | _, _ =>
      (.ok (p.serializePrivate encoding format encryption_algorithm k.seed),
        [.serializePrivateOp encoding format])
  else
    (.error .unsupportedFormat, [])

/-- `Ed448PrivateKey.private_bytes_raw` from the source: exactly
`private_bytes(Encoding.Raw, PrivateFormat.Raw, NoEncryption())`. -/
def Ed448PrivateKey.private_bytes_raw (p : Provider) (k : Ed448PrivateKey) :
    Except CryptoError ByteString × List ProviderCall :=
  k.private_bytes p .Raw .Raw .NoEncryption

/-- A concrete provider that reports Ed448 as unsupported, for instantiating
the theorems; its arithmetic fields are a toy scheme in which the public key
is the seed itself and a signature is the public key followed by the
message. -/
def offProvider : Provider where
  ed448Supported := false
  derivePublic := fun s => s
  signRaw := fun s m => s ++ m
  verifyRaw := fun pub sig m => sig == pub ++ m
  serializePublic := fun _ _ b => b
  serializePrivate := fun _ _ _ b => b

/-- The same toy provider with Ed448 support reported as available. -/
def onProvider : Provider :=
  { offProvider with ed448Supported := true }

/-- A concrete 57-byte public key. -/
def samplePublicKey : Ed448PublicKey :=
  ⟨List.replicate 57 0⟩

/-- A concrete 57-byte private key. -/
def samplePrivateKey : Ed448PrivateKey :=
  ⟨List.replicate 57 1⟩

/-- C1: when the provider reports `ed448_supported() == false`, each of the
three constructors (`from_public_bytes`, `generate`, `from_private_bytes`)
fails with the `UnsupportedAlgorithm` error and its provider-call trace is
exactly the single capability check: the load/generate provider operations
are never invoked, and `generate` consumes no entropy. -/
theorem unsupported_provider_only_capability_check (p : Provider)
    (h : p.ed448Supported = false) (data : ByteString) (entropy : List Nat) :
    Ed448PublicKey.from_public_bytes p data
        = (.error ed448UnsupportedError, [.supportedCheck])
      ∧ Ed448PrivateKey.generate p entropy
        = ((.error ed448UnsupportedError, [.supportedCheck]), entropy)
      ∧ Ed448PrivateKey.from_private_bytes p data
        = (.error ed448UnsupportedError, [.supportedCheck]) := by
  refine ⟨?_, ?_, ?_⟩ <;>
    simp [Ed448PublicKey.from_public_bytes, Ed448PrivateKey.generate,
      Ed448PrivateKey.from_private_bytes, h]

/-- C1 witness: the statement at the unsupported toy provider with concrete
inputs. -/
theorem unsupported_provider_only_capability_check_instance :
    Ed448PublicKey.from_public_bytes offProvider [0]
        = (.error ed448UnsupportedError, [.supportedCheck])
      ∧ Ed448PrivateKey.generate offProvider [1, 2]
        = ((.error ed448UnsupportedError, [.supportedCheck]), [1, 2])
      ∧ Ed448PrivateKey.from_private_bytes offProvider [0]
        = (.error ed448UnsupportedError, [.supportedCheck]) :=
  unsupported_provider_only_capability_check offProvider rfl [0] [1, 2]

/-- C2: the raw convenience methods equal the core serialization methods at
the Raw selectors, and `public_bytes_raw` succeeds on every constructed
public key, returning its raw bytes. -/
theorem raw_convenience_equals_core (p : Provider) (k : Ed448PublicKey)
    (kp : Ed448PrivateKey) :
    Ed448PublicKey.public_bytes_raw p k = Ed448PublicKey.public_bytes p k .Raw .Raw
      ∧ (Ed448PublicKey.public_bytes_raw p k).1 = .ok k.rawBytes
      ∧ Ed448PrivateKey.private_bytes_raw p kp
        = Ed448PrivateKey.private_bytes p kp .Raw .Raw .NoEncryption := by
  refine ⟨rfl, ?_, rfl⟩
  simp [Ed448PublicKey.public_bytes_raw, Ed448PublicKey.public_bytes,
    validPublicPair]

/-- C3: with a provider whose handle-level Ed448 arithmetic is correct
(verification accepts the signature the provider computes for the derived
public key), signing any message with any private key and verifying through
the derived public key succeeds, for any entropy stream. -/
theorem sign_then_verify_succeeds (p : Provider)
    (hp : ∀ s m, p.verifyRaw (p.derivePublic s) (p.signRaw s m) m = true)
    (k : Ed448PrivateKey) (m : ByteString) (entropy : List Nat) :
    Ed448PublicKey.verify p (Ed448PrivateKey.public_key p k)
      (Ed448PrivateKey.sign p k m entropy).1 m = .ok () := by
  simp [Ed448PublicKey.verify, Ed448PrivateKey.public_key,
    Ed448PrivateKey.sign, hp]

/-- C3 witness: the statement at the supporting toy provider, whose toy
scheme satisfies the handle-level correctness hypothesis. -/
theorem sign_then_verify_succeeds_instance :
    Ed448PublicKey.verify onProvider
      (Ed448PrivateKey.public_key onProvider samplePrivateKey)
      (Ed448PrivateKey.sign onProvider samplePrivateKey [5] []).1 [5] = .ok () :=
  sign_then_verify_succeeds onProvider
    (fun s m => by simp [onProvider, offProvider]) samplePrivateKey [5] []

/-- C4: public-key round trip: for a supporting provider and a valid
(57-byte) public key, `public_bytes_raw` yields the raw bytes and
`from_public_bytes` on those bytes succeeds with a key equal to the
original under the key-equality relation. -/
theorem public_key_roundtrip (p : Provider) (k : Ed448PublicKey)
    (hs : p.ed448Supported = true) (hk : k.rawBytes.length = 57) :
    (Ed448PublicKey.public_bytes_raw p k).1 = .ok k.rawBytes
      ∧ ∃ k2, (Ed448PublicKey.from_public_bytes p k.rawBytes).1 = .ok k2
          ∧ Ed448PublicKey.eq k2 k = true := by
  refine ⟨?_, ⟨k, ?_, ?_⟩⟩
  · simp [Ed448PublicKey.public_bytes_raw, Ed448PublicKey.public_bytes,
      validPublicPair]
  · simp [Ed448PublicKey.from_public_bytes, hs, ed448_load_public_bytes, hk]
  · simp [Ed448PublicKey.eq]

/-- C4 witness: the round trip at the supporting toy provider and the
concrete 57-byte public key. -/
theorem public_key_roundtrip_instance :
    (Ed448PublicKey.public_bytes_raw onProvider samplePublicKey).1
        = .ok samplePublicKey.rawBytes
      ∧ ∃ k2, (Ed448PublicKey.from_public_bytes onProvider
            samplePublicKey.rawBytes).1 = .ok k2
          ∧ Ed448PublicKey.eq k2 samplePublicKey = true :=
  public_key_roundtrip onProvider samplePublicKey rfl (by simp [samplePublicKey])

/-- C5: private-key round trip: for a supporting provider and a valid
(57-byte) private key, `private_bytes_raw` yields the seed and
`from_private_bytes` on it succeeds with a key whose derived public key
equals the original's and whose raw private serialization agrees. -/
theorem private_key_roundtrip (p : Provider) (k : Ed448PrivateKey)
    (hs : p.ed448Supported = true) (hk : k.seed.length = 57) :
    (Ed448PrivateKey.private_bytes_raw p k).1 = .ok k.seed
      ∧ ∃ k2, (Ed448PrivateKey.from_private_bytes p k.seed).1 = .ok k2
          ∧ Ed448PublicKey.eq (Ed448PrivateKey.public_key p k2)
              (Ed448PrivateKey.public_key p k) = true
          ∧ (Ed448PrivateKey.private_bytes_raw p k2).1
              = (Ed448PrivateKey.private_bytes_raw p k).1 := by
  refine ⟨?_, ⟨k, ?_, ?_, rfl⟩⟩
  · simp [Ed448PrivateKey.private_bytes_raw, Ed448PrivateKey.private_bytes,
      validPrivatePair]
  · simp [Ed448PrivateKey.from_private_bytes, hs, ed448_load_private_bytes, hk]
  · simp [Ed448PublicKey.eq]

/-- C5 witness: the round trip at the supporting toy provider and the
concrete 57-byte private key. -/
theorem private_key_roundtrip_instance :
    (Ed448PrivateKey.private_bytes_raw onProvider samplePrivateKey).1
        = .ok samplePrivateKey.seed
      ∧ ∃ k2, (Ed448PrivateKey.from_private_bytes onProvider
            samplePrivateKey.seed).1 = .ok k2
          ∧ Ed448PublicKey.eq (Ed448PrivateKey.public_key onProvider k2)
              (Ed448PrivateKey.public_key onProvider samplePrivateKey) = true
          ∧ (Ed448PrivateKey.private_bytes_raw onProvider k2).1
              = (Ed448PrivateKey.private_bytes_raw onProvider samplePrivateKey).1 :=
  private_key_roundtrip onProvider samplePrivateKey rfl (by simp [samplePrivateKey])

/-- C6: signing is deterministic and consumes no randomness: for the same
key and message, signing under any two entropy streams yields identical
bytes, and the entropy stream is returned unchanged. -/
theorem sign_is_deterministic (p : Provider) (k : Ed448PrivateKey)
    (data : ByteString) (e1 e2 : List Nat) :
    (Ed448PrivateKey.sign p k data e1).1 = (Ed448PrivateKey.sign p k data e2).1
      ∧ (Ed448PrivateKey.sign p k data e1).2 = e1 :=
  ⟨rfl, rfl⟩

/-- C7: format-matrix validation happens before any provider computation:
every (encoding, format) pair outside the valid matrix fails with the
`UnsupportedFormat`-class error with an empty provider-call trace, for
public and private serialization alike; in particular
`public_bytes(Raw, SubjectPublicKeyInfo)` fails that way while
`public_bytes(Raw, Raw)` succeeds with the raw bytes. -/
theorem format_matrix_before_provider (p : Provider) (k : Ed448PublicKey)
    (kp : Ed448PrivateKey) :
    (∀ encoding format, validPublicPair encoding format = false →
        Ed448PublicKey.public_bytes p k encoding format
          = (.error .unsupportedFormat, []))
      ∧ (∀ encoding format alg, validPrivatePair encoding format = false →
          Ed448PrivateKey.private_bytes p kp encoding format alg
            = (.error .unsupportedFormat, []))
      ∧ Ed448PublicKey.public_bytes p k .Raw .SubjectPublicKeyInfo
          = (.error .unsupportedFormat, [])
      ∧ Ed448PublicKey.public_bytes p k .Raw .Raw = (.ok k.rawBytes, []) := by
  refine ⟨fun encoding format h => ?_, fun encoding format alg h => ?_, ?_, ?_⟩
  · simp [Ed448PublicKey.public_bytes, h]
  · simp [Ed448PrivateKey.private_bytes, h]
  · simp [Ed448PublicKey.public_bytes, validPublicPair]
  · simp [Ed448PublicKey.public_bytes, validPublicPair]

/-- C7 witness: a concrete invalid pair rejected with an empty trace, the
nested validity hypothesis discharged by computation. -/
theorem format_matrix_before_provider_instance :
    Ed448PublicKey.public_bytes onProvider samplePublicKey .PEM .Raw
      = (.error .unsupportedFormat, []) :=
  (format_matrix_before_provider onProvider samplePublicKey samplePrivateKey).1
    .PEM .Raw rfl

/-- C8: with a supporting provider, `from_public_bytes` and
`from_private_bytes` fail with the `InvalidKey`-class error on every input
whose length is not exactly 57 bytes. -/
theorem load_rejects_wrong_length (p : Provider) (data : ByteString)
    (hs : p.ed448Supported = true) (hlen : data.length ≠ 57) :
    (Ed448PublicKey.from_public_bytes p data).1 = .error .invalidKey
      ∧ (Ed448PrivateKey.from_private_bytes p data).1 = .error .invalidKey := by
  refine ⟨?_, ?_⟩ <;>
    simp [Ed448PublicKey.from_public_bytes, Ed448PrivateKey.from_private_bytes,
      ed448_load_public_bytes, ed448_load_private_bytes, hs, hlen]

/-- C8 witness: both loads reject the empty input at the supporting toy
provider. -/
theorem load_rejects_wrong_length_instance :
    (Ed448PublicKey.from_public_bytes onProvider []).1 = .error .invalidKey
      ∧ (Ed448PrivateKey.from_private_bytes onProvider []).1
          = .error .invalidKey :=
  load_rejects_wrong_length onProvider [] rfl (by decide)

/-- C9: the equality law: two public keys are equal under the key-equality
relation exactly when their raw public serializations coincide, regardless
of how each key was constructed. -/
theorem public_key_equality_law (p : Provider) (a b : Ed448PublicKey) :
    Ed448PublicKey.eq a b = true
      ↔ (Ed448PublicKey.public_bytes_raw p a).1
          = (Ed448PublicKey.public_bytes_raw p b).1 := by
  simp [Ed448PublicKey.eq, Ed448PublicKey.public_bytes_raw,
    Ed448PublicKey.public_bytes, validPublicPair]

/-- C10: with an unsupported provider the failure of the byte-loading
constructors is independent of the input: any two inputs produce the same
outcome, namely the `UnsupportedAlgorithm` error with the source's message
and the `UNSUPPORTED_PUBLIC_KEY_ALGORITHM` reason, and the trace is the
bare capability check, so the input bytes never reach the provider. -/
theorem unsupported_failure_input_independent (p : Provider)
    (h : p.ed448Supported = false) (data1 data2 : ByteString) :
    Ed448PublicKey.from_public_bytes p data1
        = Ed448PublicKey.from_public_bytes p data2
      ∧ Ed448PublicKey.from_public_bytes p data1
          = (.error (.unsupportedAlgorithm ed448UnsupportedMessage
              .UNSUPPORTED_PUBLIC_KEY_ALGORITHM), [.supportedCheck])
      ∧ Ed448PrivateKey.from_private_bytes p data1
          = Ed448PrivateKey.from_private_bytes p data2
      ∧ Ed448PrivateKey.from_private_bytes p data1
          = (.error (.unsupportedAlgorithm ed448UnsupportedMessage
              .UNSUPPORTED_PUBLIC_KEY_ALGORITHM), [.supportedCheck]) := by
  refine ⟨?_, ?_, ?_, ?_⟩ <;>
    simp [Ed448PublicKey.from_public_bytes, Ed448PrivateKey.from_private_bytes,
      ed448UnsupportedError, h]

/-- C10 witness: the input-independent failure at the unsupported toy
provider on two concrete inputs of different lengths. -/
theorem unsupported_failure_input_independent_instance :
    Ed448PublicKey.from_public_bytes offProvider [3]
        = Ed448PublicKey.from_public_bytes offProvider [4, 5]
      ∧ Ed448PublicKey.from_public_bytes offProvider [3]
          = (.error (.unsupportedAlgorithm ed448UnsupportedMessage
              .UNSUPPORTED_PUBLIC_KEY_ALGORITHM), [.supportedCheck])
      ∧ Ed448PrivateKey.from_private_bytes offProvider [3]
          = Ed448PrivateKey.from_private_bytes offProvider [4, 5]
      ∧ Ed448PrivateKey.from_private_bytes offProvider [3]
          = (.error (.unsupportedAlgorithm ed448UnsupportedMessage
              .UNSUPPORTED_PUBLIC_KEY_ALGORITHM), [.supportedCheck]) :=
  unsupported_failure_input_independent offProvider rfl [3] [4, 5]
